import Mathlib

/-!
Shallow embedding of `app.py` from the `google-analytics-mcp` repository:
a GA4 reporting facade exposing one tool over two HTTP framings
(legacy REST `GET /tools` / `POST /call`, and a JSON-RPC-style `POST /`).

JSON values are modelled by the inductive `Json`; Python dictionaries are
association lists (parsed JSON objects have distinct keys, so first-match
lookup agrees with Python's lookup).  Python exceptions that the handlers
catch are modelled by `PyExn`; `HTTPException` mirrors FastAPI's, and each
route handler is a pure function returning a `Response` (status code plus
JSON body).  The external Analytics Data client is a parameter
`backend : RunReportRequest → Except PyExn GA4Response`.
-/

/-- A JSON value.  Numbers are integers: the program only ever handles the
integral `limit`, `code` and `default` numbers. -/
inductive Json where
  | null : Json
  | bool : Bool → Json
  | num : Int → Json
  | str : String → Json
  | arr : List Json → Json
  | obj : List (String × Json) → Json

/-- First-match lookup in an object's field list (Python `d[k]` / `d.get(k)`
on a parsed-JSON dict, whose keys are distinct). -/
def jlookup : List (String × Json) → String → Option Json
  | [], _ => none
  | (k, v) :: rest, key => if k = key then some v else jlookup rest key

/-- Field access on a `Json` value; `none` on non-objects and absent keys. -/
def Json.get? : Json → String → Option Json
  | .obj m, key => jlookup m key
  | _, _ => none

/-- Python truthiness of a JSON value (`if not x: ...`). -/
def Json.truthy : Json → Bool
  | .null => false
  | .bool b => b
  | .num n => n ≠ 0
  | .str s => ¬ s.isEmpty
  | .arr xs => ¬ xs.isEmpty
  | .obj m => ¬ m.isEmpty

/-- Python `x == s` for a string literal `s`: true exactly when `x` is the
same string (values of other JSON types never equal a `str`). -/
def Json.eqStr : Json → String → Bool
  | .str s, t => s = t
  | _, _ => false

mutual
/-- Python `str(x)` / f-string interpolation of a JSON value
(`None` → `"None"`, booleans capitalised, strings verbatim). -/
def pyStr : Json → String
  | .null => "None"
  | .bool b => if b then "True" else "False"
  | .num n => toString n
  | .str s => s
  | .arr xs => "[" ++ pyStrList xs ++ "]"
  | .obj m => "\x7b" ++ pyStrObj m ++ "\x7d"

/-- Python `repr` of a JSON value, used for elements inside lists/dicts. -/
def pyRepr : Json → String
  | .null => "None"
  | .bool b => if b then "True" else "False"
  | .num n => toString n
  | .str s => "'" ++ s ++ "'"
  | .arr xs => "[" ++ pyStrList xs ++ "]"
  | .obj m => "\x7b" ++ pyStrObj m ++ "\x7d"

/-- Comma-separated `repr`s of list elements. -/
def pyStrList : List Json → String
  | [] => ""
  | [x] => pyRepr x
  | x :: xs => pyRepr x ++ ", " ++ pyStrList xs

/-- Comma-separated `repr`s of dict entries. -/
def pyStrObj : List (String × Json) → String
  | [] => ""
  | [(k, v)] => "'" ++ k ++ "': " ++ pyRepr v
  | (k, v) :: xs => "'" ++ k ++ "': " ++ pyRepr v ++ ", " ++ pyStrObj xs
end

/-- The Python exceptions the handlers distinguish: `KeyError` (carrying the
missing key, `e.args[0]`) versus every other `Exception` (carrying `str(e)`). -/
inductive PyExn where
  | keyError (key : String)
  | otherError (msg : String)
deriving DecidableEq

/-- The `fastapi.HTTPException` payload: status code plus detail string. -/
structure HTTPException where
  status_code : Nat
  detail : String
deriving DecidableEq

/-- An HTTP response: status code plus JSON body. -/
structure Response where
  status_code : Nat
  body : Json

/-- Drop the first `n` characters of a string (character-level `String.drop`;
the agreement with the library function is `strDrop_eq_drop` below). -/
def strDrop (s : String) (n : Nat) : String := ⟨s.data.drop n⟩

/-- Python `str.strip()`: remove leading and trailing whitespace. -/
def pyStrip (s : String) : String :=
  ⟨((s.data.dropWhile Char.isWhitespace).reverse.dropWhile
      Char.isWhitespace).reverse⟩

/-- Auth guard `require_bearer` (app.py lines 24–32).  The process credential
`AUTH_TOKEN` is `Option String` (`os.environ.get` may yield nothing); the
`header` argument is `request.headers.get("authorization", "")`.  Python's
`header.split(" ", 1)[1]` equals `strDrop header 7` whenever the header starts
with the 7-character prefix `"Bearer "` (the first space sits at index 6). -/
def require_bearer (AUTH_TOKEN : Option String) (header : String) :
    Except HTTPException Unit :=
  match AUTH_TOKEN with
  | none => .error ⟨500, "Server missing MCP_AUTH_TOKEN"⟩
  | some t =>
    if t = "" then .error ⟨500, "Server missing MCP_AUTH_TOKEN"⟩
    else if ¬ ("Bearer ".data.isPrefixOf header.data) then
      .error ⟨401, "Missing bearer token"⟩
    else if pyStrip (strDrop header 7) ≠ t then .error ⟨401, "Invalid token"⟩
    else .ok ()

/-- Match type `Filter.StringFilter.MatchType`; only `EXACT` is used. -/
inductive MatchType where
  | EXACT : MatchType
deriving DecidableEq

/-- String filter `Filter.StringFilter`: the value is the raw JSON the program
passes (`df["eventName"]`). -/
structure StringFilter where
  value : Json
  match_type : MatchType

/-- Filter expression `FilterExpression(filter=Filter(field_name=…,
string_filter=…))`, flattened: the program only ever builds this shape. -/
structure FilterExpression where
  field_name : String
  string_filter : StringFilter

/-- A `Metric(name=…)`; the name is whatever JSON value `m["name"]` held. -/
structure Metric where
  name : Json

/-- A `Dimension(name=…)`. -/
structure Dimension where
  name : Json

/-- A `DateRange(start_date=…, end_date=…)`. -/
structure DateRange where
  start_date : Json
  end_date : Json

/-- The `RunReportRequest` as assembled at app.py lines 70–77. -/
structure RunReportRequest where
  property : Json
  metrics : List Metric
  dimensions : List Dimension
  date_ranges : List DateRange
  limit : Int
  dimension_filter : Option FilterExpression

/-- A dimension header of the backend reply (`h.name`). -/
structure DimensionHeader where
  name : String

/-- A metric header of the backend reply (`h.name`). -/
structure MetricHeader where
  name : String

/-- A dimension cell of a backend row (`v.string_value`). -/
structure DimensionValue where
  string_value : String

/-- A metric cell of a backend row (`m.value`). -/
structure MetricValue where
  value : String

/-- One row of the backend reply. -/
structure GA4Row where
  dimension_values : List DimensionValue
  metric_values : List MetricValue

/-- The backend reply used by the flattening code (lines 80–88). -/
structure GA4Response where
  dimension_headers : List DimensionHeader
  metric_headers : List MetricHeader
  rows : List GA4Row

/-- Python `d[k]` on a dict: the value, or a `KeyError` naming the key. -/
def pyGetItem (m : List (String × Json)) (k : String) : Except PyExn Json :=
  match jlookup m k with
  | some v => .ok v
  | none => .error (.keyError k)

/-- Python `d.get(k, dflt)`. -/
def pyGet (m : List (String × Json)) (k : String) (dflt : Json) : Json :=
  (jlookup m k).getD dflt

/-- Read a non-empty all-digit character list as a number. -/
def parseDigitsAux : List Char → Nat → Option Nat
  | [], acc => some acc
  | c :: cs, acc =>
    if c.isDigit then parseDigitsAux cs (acc * 10 + (c.toNat - '0'.toNat))
    else none

/-- Python `int(s)` on a string: optional surrounding whitespace, optional
sign, then decimal digits; anything else is a `ValueError`. -/
def pyIntOfString (s : String) : Option Int :=
  match (pyStrip s).data with
  | [] => none
  | '+' :: cs => if cs.isEmpty then none else (parseDigitsAux cs 0).map Int.ofNat
  | '-' :: cs =>
    if cs.isEmpty then none
    else (parseDigitsAux cs 0).map (fun n => -(n : Int))
  | cs => (parseDigitsAux cs 0).map Int.ofNat

/-- Python `int(x)` on a JSON value: integers pass through, booleans map to
0/1, strings are parsed, everything else raises a non-`KeyError` exception. -/
def pyInt : Json → Except PyExn Int
  | .num n => .ok n
  | .bool b => .ok (if b then 1 else 0)
  | .str s =>
    match pyIntOfString s with
    | some n => .ok n
    | none =>
      .error (.otherError ("invalid literal for int() with base 10: '"
        ++ s ++ "'"))
  | .null =>
    .error (.otherError
      "int() argument must be a string, a bytes-like object or a real number, not 'NoneType'")
  | .arr _ =>
    .error (.otherError
      "int() argument must be a string, a bytes-like object or a real number, not 'list'")
  | .obj _ =>
    .error (.otherError
      "int() argument must be a string, a bytes-like object or a real number, not 'dict'")

/-- Contiguous-subsequence (substring) test on character lists, for Python's
`needle in haystack` on strings. -/
def charsInfixOf (needle : List Char) : List Char → Bool
  | [] => needle.isEmpty
  | c :: rest => needle.isPrefixOf (c :: rest) || charsInfixOf needle rest

/-- Filter builder `build_dimension_filter` (app.py lines 38–53), over the
`args` dict.
`if not df` is Python truthiness; `"eventName" in df` is dict-key membership
for dicts, substring/element membership for strings and lists (where a hit
then makes `df["eventName"]` raise a `TypeError`), and a `TypeError` for
other truthy values. -/
def build_dimension_filter (args : List (String × Json)) :
    Except PyExn (Option FilterExpression) :=
  let df := pyGet args "dimensionFilter" .null
  if ¬ df.truthy then .ok none
  else
    match df with
    | .obj fields =>
      match jlookup fields "eventName" with
      | some v =>
        if v.truthy then .ok (some ⟨"eventName", ⟨v, .EXACT⟩⟩) else .ok none
      | none => .ok none
    | .str s =>
      if charsInfixOf "eventName".data s.data then
        .error (.otherError "string indices must be integers")
      else .ok none
    | .arr xs =>
      if xs.any (·.eqStr "eventName") then
        .error (.otherError "list indices must be integers or slices, not str")
      else .ok none
    | _ => .error (.otherError "argument of type 'int' is not iterable")

/-- One entry of `args["metrics"]`: `Metric(name=m["name"])`. -/
def metric_entry : Json → Except PyExn Metric
  | .obj fields =>
    match pyGetItem fields "name" with
    | .error e => .error e
    | .ok n => .ok ⟨n⟩
  | .str _ => .error (.otherError "string indices must be integers")
  | _ => .error (.otherError "'int' object is not subscriptable")

/-- One entry of `args["dimensions"]`: `Dimension(name=d["name"])`. -/
def dimension_entry : Json → Except PyExn Dimension
  | .obj fields =>
    match pyGetItem fields "name" with
    | .error e => .error e
    | .ok n => .ok ⟨n⟩
  | .str _ => .error (.otherError "string indices must be integers")
  | _ => .error (.otherError "'int' object is not subscriptable")

/-- One entry of `args["dateRanges"]`:
`DateRange(start_date=r["startDate"], end_date=r["endDate"])`. -/
def date_range_entry : Json → Except PyExn DateRange
  | .obj fields =>
    match pyGetItem fields "startDate" with
    | .error e => .error e
    | .ok sd =>
      match pyGetItem fields "endDate" with
      | .error e => .error e
      | .ok ed => .ok ⟨sd, ed⟩
  | .str _ => .error (.otherError "string indices must be integers")
  | _ => .error (.otherError "'int' object is not subscriptable")

/-- Iterating a JSON value in a list comprehension: lists yield their
elements; non-list values are modelled as a `TypeError` (the program never
feeds the degenerate iterables — strings, dicts — through this path on any
input a property below depends on). -/
def pyIterate : Json → Except PyExn (List Json)
  | .arr xs => .ok xs
  | _ => .error (.otherError "object is not iterable")

/-- The validation/construction phase of `run_ga4_report` (app.py lines
57–67): extracts the required fields in program order (`property`, then
`metrics`, then `dateRanges`), the optional `dimensions` and `limit`, and the
optional dimension filter, producing the `RunReportRequest` of lines 70–77. -/
def build_run_report_request (args : Json) : Except PyExn RunReportRequest :=
  match args with
  | .obj m =>
    match pyGetItem m "property" with
    | .error e => .error e
    | .ok prop =>
      match pyGetItem m "metrics" with
      | .error e => .error e
      | .ok metricsv =>
        match pyIterate metricsv with
        | .error e => .error e
        | .ok ms =>
          match ms.mapM metric_entry with
          | .error e => .error e
          | .ok metrics_in =>
            match pyGetItem m "dateRanges" with
            | .error e => .error e
            | .ok rangesv =>
              match pyIterate rangesv with
              | .error e => .error e
              | .ok rs =>
                match rs.mapM date_range_entry with
                | .error e => .error e
                | .ok date_ranges_in =>
                  match pyIterate (pyGet m "dimensions" (.arr [])) with
                  | .error e => .error e
                  | .ok ds =>
                    match ds.mapM dimension_entry with
                    | .error e => .error e
                    | .ok dims_in =>
                      match pyInt (pyGet m "limit" (.num 1000)) with
                      | .error e => .error e
                      | .ok limit =>
                        match build_dimension_filter m with
                        | .error e => .error e
                        | .ok dim_filter =>
                          .ok ⟨prop, metrics_in, dims_in, date_ranges_in,
                            limit, dim_filter⟩
  | .str _ => .error (.otherError "string indices must be integers")
  | _ => .error (.otherError "'int' object is not subscriptable")

/-- Python dict construction from a pair sequence (`{k: v for k, v in …}`):
insertion order is kept, a repeated key overwrites its earlier value in
place. -/
def pyDictSet (d : List (String × String)) (k : String) (v : String) :
    List (String × String) :=
  if d.any (·.1 = k) then d.map (fun p => if p.1 = k then (k, v) else p)
  else d ++ [(k, v)]

/-- Build a Python dict from an ordered list of key/value pairs. -/
def pyDict (ps : List (String × String)) : List (String × String) :=
  ps.foldl (fun d p => pyDictSet d p.1 p.2) []

/-- The `headers` list (app.py lines 80–82): dimension header names then
metric header names. -/
def flatten_headers (resp : GA4Response) : List String :=
  resp.dimension_headers.map (·.name) ++ resp.metric_headers.map (·.name)

/-- The `vals` list (lines 85–87): dimension values then metric values. -/
def row_vals (r : GA4Row) : List String :=
  r.dimension_values.map (·.string_value) ++ r.metric_values.map (·.value)

/-- Row comprehension `{k: v for k, v in zip(headers, vals)}` (line 88). -/
def flatten_row (headers vals : List String) : List (String × String) :=
  pyDict (headers.zip vals)

/-- Render a flattened row as a JSON object (all values are strings). -/
def rowJson (row : List (String × String)) : Json :=
  .obj (row.map fun p => (p.1, .str p.2))

/-- The result assembly of `run_ga4_report` (lines 80–90):
`{"ok": True, "rowCount": len(rows), "rows": rows}`. -/
def flatten_report (resp : GA4Response) : Json :=
  let headers := flatten_headers resp
  let rows := resp.rows.map (fun r => flatten_row headers (row_vals r))
  .obj [("ok", .bool true), ("rowCount", .num rows.length),
    ("rows", .arr (rows.map rowJson))]

/-- Report runner `run_ga4_report` (lines 56–90): build the request, invoke
the external
client once (`backend` stands for `client.run_report`; its failures are the
exceptions it raises), and flatten the reply. -/
def run_ga4_report (backend : RunReportRequest → Except PyExn GA4Response)
    (args : Json) : Except PyExn Json :=
  match build_run_report_request args with
  | .error e => .error e
  | .ok req =>
    match backend req with
    | .error e => .error e
    | .ok resp => .ok (flatten_report resp)

/-- The static schema of the single tool (app.py lines 109–151). -/
def tool_schema : Json :=
  .obj [
    ("name", .str "run_report"),
    ("description", .str "Run a GA4 Core (Data API) report."),
    ("input_schema", .obj [
      ("type", .str "object"),
      ("required", .arr [.str "property", .str "metrics", .str "dateRanges"]),
      ("properties", .obj [
        ("property", .obj [
          ("type", .str "string"),
          ("description",
            .str "GA4 property resource: 'properties/<NUMERIC_ID>'"),
          ("example", .str "properties/123456789")]),
        ("metrics", .obj [
          ("type", .str "array"),
          ("items", .obj [
            ("type", .str "object"),
            ("properties", .obj [("name", .obj [("type", .str "string")])])]),
          ("example", .arr [.obj [("name", .str "activeUsers")]])]),
        ("dimensions", .obj [
          ("type", .str "array"),
          ("items", .obj [
            ("type", .str "object"),
            ("properties", .obj [("name", .obj [("type", .str "string")])])]),
          ("example", .arr [.obj [("name", .str "date")]])]),
        ("dateRanges", .obj [
          ("type", .str "array"),
          ("items", .obj [
            ("type", .str "object"),
            ("properties", .obj [
              ("startDate", .obj [
                ("type", .str "string"), ("example", .str "7daysAgo")]),
              ("endDate", .obj [
                ("type", .str "string"), ("example", .str "yesterday")])]),
            ("required", .arr [.str "startDate", .str "endDate"])]),
          ("example", .arr [.obj [
            ("startDate", .str "7daysAgo"), ("endDate", .str "yesterday")]])]),
        ("limit", .obj [("type", .str "integer"), ("default", .num 1000)]),
        ("dimensionFilter", .obj [
          ("type", .str "object"),
          ("description",
            .str "Optional simple filter. Example: \x7b\"eventName\":\"purchase\"\x7d"),
          ("example", .obj [("eventName", .str "purchase")])])])])]

/-- The body returned by `GET /tools` (line 107): `{"tools": [ … ]}`. -/
def tools_payload : Json := .obj [("tools", .arr [tool_schema])]

/-- Render an `HTTPException` the way FastAPI serves it:
`{"detail": <detail>}` under its status code. -/
def toResponse : Except HTTPException Response → Response
  | .ok r => r
  | .error e => ⟨e.status_code, .obj [("detail", .str e.detail)]⟩

/-- The message of the two `except` arms shared by both framings:
`KeyError` → `"Missing required field: <key>"`, any other exception →
`str(e)`. -/
def exnMessage : PyExn → String
  | .keyError k => "Missing required field: " ++ k
  | .otherError msg => msg

/-- Health endpoint `GET /` (lines 96–98): it ignores the request — in
particular its `Authorization` header — entirely. -/
def root (_auth_header : String) : Response :=
  ⟨200, .obj [("status", .str "ok"), ("service", .str "ga4-mcp-http")]⟩

/-- Handler of `GET /tools` (lines 104–153) before FastAPI's exception
rendering. -/
def legacy_tools_inner (AUTH_TOKEN : Option String) (header : String) :
    Except HTTPException Response :=
  match require_bearer AUTH_TOKEN header with
  | .error e => .error e
  | .ok _ => .ok ⟨200, tools_payload⟩

/-- Endpoint `GET /tools`. -/
def legacy_tools (AUTH_TOKEN : Option String) (header : String) : Response :=
  toResponse (legacy_tools_inner AUTH_TOKEN header)

/-- Handler of `POST /call` (lines 156–170) before FastAPI's exception
rendering, on a
successfully parsed JSON `body`.  `body.get(…)` on a non-dict body raises an
`AttributeError`, which no handler catches: FastAPI turns it into a bare
HTTP 500. -/
def legacy_call_inner (backend : RunReportRequest → Except PyExn GA4Response)
    (AUTH_TOKEN : Option String) (header : String) (body : Json) :
    Except HTTPException Response :=
  match require_bearer AUTH_TOKEN header with
  | .error e => .error e
  | .ok _ =>
    match body with
    | .obj bm =>
      let tool := pyGet bm "toolName" .null
      if ¬ tool.eqStr "run_report" then
        .error ⟨400, "Unknown tool: " ++ pyStr tool⟩
      else
        let args := pyGet bm "arguments" (.obj [])
        match run_ga4_report backend args with
        | .ok result => .ok ⟨200, result⟩
        | .error e => .error ⟨400, exnMessage e⟩
    | _ => .error ⟨500, "Internal Server Error"⟩

/-- Endpoint `POST /call`. -/
def legacy_call (backend : RunReportRequest → Except PyExn GA4Response)
    (AUTH_TOKEN : Option String) (header : String) (body : Json) : Response :=
  toResponse (legacy_call_inner backend AUTH_TOKEN header body)

/-- An RPC error envelope: `{"id": …, "error": {"code": 400, "message": …}}`. -/
def envErr (req_id : Json) (msg : String) : Json :=
  .obj [("id", req_id),
    ("error", .obj [("code", .num 400), ("message", .str msg)])]

/-- An RPC success envelope: `{"id": …, "result": …}`. -/
def envOk (req_id : Json) (result : Json) : Json :=
  .obj [("id", req_id), ("result", result)]

/-- Handler of `POST /` (lines 182–232) before FastAPI's exception rendering.
`payload?` is the outcome of `request.json()` (`none` = unparseable body).
`payload.get(…)` / `params.get(…)` on a non-dict value raises an
uncaught `AttributeError` → bare HTTP 500. -/
def mcp_http_inner (backend : RunReportRequest → Except PyExn GA4Response)
    (AUTH_TOKEN : Option String) (header : String) (payload? : Option Json) :
    Except HTTPException Response :=
  match require_bearer AUTH_TOKEN header with
  | .error e => .error e
  | .ok _ =>
    match payload? with
    | none => .error ⟨400, "Invalid JSON"⟩
    | some payload =>
      match payload with
      | .obj pm =>
        let req_id := pyGet pm "id" .null
        let method := pyGet pm "method" .null
        let params0 := pyGet pm "params" (.obj [])
        let params := if params0.truthy then params0 else .obj []
        if ¬ method.truthy then .error ⟨400, "Missing 'method'"⟩
        else if method.eqStr "tools/list" then
          match legacy_tools_inner AUTH_TOKEN header with
          | .error e => .error e
          | .ok resp =>
            .ok ⟨200, envOk req_id
              (.obj [("tools", (resp.body.get? "tools").getD .null)])⟩
        else if method.eqStr "tools/call" then
          match params with
          | .obj qm =>
            let name := pyGet qm "name" .null
            if ¬ name.eqStr "run_report" then
              .ok ⟨400, envErr req_id ("Unknown tool: " ++ pyStr name)⟩
            else
              let args0 := pyGet qm "arguments" (.obj [])
              let args := if args0.truthy then args0 else .obj []
              match run_ga4_report backend args with
              | .ok result =>
                .ok ⟨200, envOk req_id
                  (.obj [("content", .arr [.obj [("type", .str "json"),
                    ("data", result)]])])⟩
              | .error e => .ok ⟨400, envErr req_id (exnMessage e)⟩
          | _ => .error ⟨500, "Internal Server Error"⟩
        else .ok ⟨400, envErr req_id ("Unknown method: " ++ pyStr method)⟩
      | _ => .error ⟨500, "Internal Server Error"⟩

/-- Endpoint `POST /`. -/
def mcp_http (backend : RunReportRequest → Except PyExn GA4Response)
    (AUTH_TOKEN : Option String) (header : String) (payload? : Option Json) :
    Response :=
  toResponse (mcp_http_inner backend AUTH_TOKEN header payload?)

/-- Concrete well-formed arguments used to instantiate properties. -/
def sample_args : List (String × Json) :=
  [("property", .str "properties/123"),
   ("metrics", .arr [.obj [("name", .str "activeUsers")]]),
   ("dateRanges", .arr [.obj [("startDate", .str "7daysAgo"),
      ("endDate", .str "yesterday")]])]

/-- The request the builder produces from `sample_args`. -/
def sample_query : RunReportRequest :=
  ⟨.str "properties/123", [⟨.str "activeUsers"⟩], [],
   [⟨.str "7daysAgo", .str "yesterday"⟩], 1000, none⟩

def sample_args_lim (v : Json) : List (String × Json) :=
  sample_args ++ [("limit", v)]

def sample_query_lim : RunReportRequest :=
  ⟨.str "properties/123", [⟨.str "activeUsers"⟩], [],
   [⟨.str "7daysAgo", .str "yesterday"⟩], 50, none⟩

/-- The id a request's payload carries (`payload.get("id")`, serialised as
JSON null when absent or when there is no dict payload at all). -/
def rpc_req_id : Option Json → Json
  | some (.obj pm) => pyGet pm "id" .null
  | _ => .null

/-- The backend reply exhibiting the header/value mismatch: two headers,
a row with no values at all. -/
def cex_resp : GA4Response := ⟨[⟨"d"⟩], [⟨"m"⟩], [⟨[], []⟩]⟩

/-! ## Helper lemmas -/

theorem strDrop_eq_drop (s : String) (n : Nat) : strDrop s n = s.drop n :=
  (String.drop_eq s n).symm

theorem bearer_prefix_append (rest : String) :
    "Bearer ".data.isPrefixOf ("Bearer " ++ rest).data = true := by
  rw [String.data_append]
  exact List.isPrefixOf_iff_prefix.mpr (List.prefix_append _ _)

theorem strDrop_bearer (rest : String) :
    strDrop ("Bearer " ++ rest) 7 = rest := by
  unfold strDrop
  rw [String.data_append]
  have h7 : ("Bearer ".data).length = 7 := rfl
  rw [← h7, List.drop_left]

theorem require_bearer_invalid (t rest : String) (ht : t ≠ "")
    (hne : pyStrip rest ≠ t) :
    require_bearer (some t) ("Bearer " ++ rest) = .error ⟨401, "Invalid token"⟩ := by
  unfold require_bearer
  simp [ht, bearer_prefix_append, strDrop_bearer, hne]

theorem require_bearer_accept (t rest : String) (ht : t ≠ "")
    (heq : pyStrip rest = t) :
    require_bearer (some t) ("Bearer " ++ rest) = .ok () := by
  unfold require_bearer
  simp [ht, bearer_prefix_append, strDrop_bearer, heq]

theorem legacy_tools_auth_error (tok : Option String) (hdr : String)
    (e : HTTPException) (h : require_bearer tok hdr = .error e) :
    legacy_tools tok hdr = ⟨e.status_code, .obj [("detail", .str e.detail)]⟩ := by
  unfold legacy_tools legacy_tools_inner toResponse
  rw [h]

theorem legacy_call_auth_error (backend : RunReportRequest → Except PyExn GA4Response)
    (tok : Option String) (hdr : String) (body : Json)
    (e : HTTPException) (h : require_bearer tok hdr = .error e) :
    legacy_call backend tok hdr body
      = ⟨e.status_code, .obj [("detail", .str e.detail)]⟩ := by
  unfold legacy_call legacy_call_inner toResponse
  rw [h]

theorem mcp_http_auth_error (backend : RunReportRequest → Except PyExn GA4Response)
    (tok : Option String) (hdr : String) (pl? : Option Json)
    (e : HTTPException) (h : require_bearer tok hdr = .error e) :
    mcp_http backend tok hdr pl?
      = ⟨e.status_code, .obj [("detail", .str e.detail)]⟩ := by
  unfold mcp_http mcp_http_inner toResponse
  rw [h]

/-! ## Claims -/

/-- C6: the auth guard checks its rules in order: a missing or empty process
credential fails with HTTP 500 regardless of the header; otherwise a header
without the literal `"Bearer "` prefix fails with HTTP 401 (missing
credential); otherwise the substring after the prefix is whitespace-trimmed
and compared for exact equality with the credential, failing with HTTP 401
(invalid credential) on mismatch, and succeeding otherwise. -/
theorem auth_guard_rules_in_order :
    (∀ header, require_bearer none header
      = .error ⟨500, "Server missing MCP_AUTH_TOKEN"⟩)
    ∧ (∀ header, require_bearer (some "") header
      = .error ⟨500, "Server missing MCP_AUTH_TOKEN"⟩)
    ∧ (∀ t header, t ≠ "" → "Bearer ".data.isPrefixOf header.data = false →
      require_bearer (some t) header = .error ⟨401, "Missing bearer token"⟩)
    ∧ (∀ t rest, t ≠ "" → pyStrip rest ≠ t →
      require_bearer (some t) ("Bearer " ++ rest)
        = .error ⟨401, "Invalid token"⟩)
    ∧ (∀ t rest, t ≠ "" → pyStrip rest = t →
      require_bearer (some t) ("Bearer " ++ rest) = .ok ()) := by
  refine ⟨fun _ => rfl, fun _ => rfl, ?_, require_bearer_invalid,
    require_bearer_accept⟩
  intro t header ht hp
  unfold require_bearer
  simp [ht, hp]

theorem auth_guard_rules_in_order_witness :
    require_bearer none "Bearer s3cret"
      = .error ⟨500, "Server missing MCP_AUTH_TOKEN"⟩
    ∧ require_bearer (some "s3cret") "Basic abc"
      = .error ⟨401, "Missing bearer token"⟩
    ∧ require_bearer (some "s3cret") ("Bearer " ++ " s3cret ") = .ok ()
    ∧ require_bearer (some "s3cret") ("Bearer " ++ "wrong")
      = .error ⟨401, "Invalid token"⟩ :=
  ⟨auth_guard_rules_in_order.1 _,
   auth_guard_rules_in_order.2.2.1 "s3cret" "Basic abc" (by decide) (by decide),
   auth_guard_rules_in_order.2.2.2.2 "s3cret" " s3cret " (by decide) (by decide),
   auth_guard_rules_in_order.2.2.2.1 "s3cret" "wrong" (by decide) (by decide)⟩

/-- C3 counterexample: the claim includes `GET /` among the endpoints that
must answer HTTP 401 to `Authorization: Bearer wrong`, but the health
handler performs no auth check at all: it answers 200 to that very header. -/
theorem health_answers_200_to_wrong_bearer :
    root "Bearer wrong"
      = ⟨200, .obj [("status", .str "ok"), ("service", .str "ga4-mcp-http")]⟩
    ∧ (root "Bearer wrong").status_code ≠ 401 :=
  ⟨rfl, by decide⟩

/-- C3 (amended): on the three authenticated entry points (`GET /tools`,
`POST /call`, `POST /`), a request whose header carries a bearer token
`"wrong"` different from the configured non-empty credential receives
HTTP 401; the health endpoint `GET /` requires no auth and answers 200
regardless of the header. -/
theorem wrong_bearer_rejected_on_auth_endpoints
    (backend : RunReportRequest → Except PyExn GA4Response) (t : String)
    (body : Json) (pl? : Option Json) (ht : t ≠ "") (hw : t ≠ "wrong") :
    (legacy_tools (some t) "Bearer wrong").status_code = 401
    ∧ (legacy_call backend (some t) "Bearer wrong" body).status_code = 401
    ∧ (mcp_http backend (some t) "Bearer wrong" pl?).status_code = 401
    ∧ root "Bearer wrong"
      = ⟨200, .obj [("status", .str "ok"), ("service", .str "ga4-mcp-http")]⟩ := by
  have hsplit : ("Bearer wrong" : String) = "Bearer " ++ "wrong" := rfl
  have hne : pyStrip "wrong" ≠ t := by
    have hstrip : pyStrip "wrong" = "wrong" := by decide
    rw [hstrip]; exact Ne.symm hw
  have he : require_bearer (some t) "Bearer wrong"
      = .error ⟨401, "Invalid token"⟩ := by
    rw [hsplit]; exact require_bearer_invalid t "wrong" ht hne
  refine ⟨?_, ?_, ?_, rfl⟩
  · rw [legacy_tools_auth_error _ _ _ he]
  · rw [legacy_call_auth_error _ _ _ _ _ he]
  · rw [mcp_http_auth_error _ _ _ _ _ he]

/-- C5: `build_dimension_filter` returns no filter when `dimensionFilter` is
absent or (Python-)empty; returns an exact-match equality filter on field
`eventName` carrying the given non-empty string when present; and silently
returns no filter (never an error) when the filter object carries no
recognized key. -/
theorem dimension_filter_behaviour :
    (∀ m, jlookup m "dimensionFilter" = none →
      build_dimension_filter m = .ok none)
    ∧ (∀ m v, jlookup m "dimensionFilter" = some v → v.truthy = false →
      build_dimension_filter m = .ok none)
    ∧ (∀ m fields s, jlookup m "dimensionFilter" = some (.obj fields) →
      jlookup fields "eventName" = some (.str s) → s ≠ "" →
      build_dimension_filter m = .ok (some ⟨"eventName", ⟨.str s, .EXACT⟩⟩))
    ∧ (∀ m fields, jlookup m "dimensionFilter" = some (.obj fields) →
      jlookup fields "eventName" = none →
      build_dimension_filter m = .ok none) := by
  refine ⟨?_, ?_, ?_, ?_⟩
  · intro m h
    simp [build_dimension_filter, pyGet, h, Json.truthy]
  · intro m v h ht
    simp [build_dimension_filter, pyGet, h, ht]
  · intro m fields s h hev hs
    have hne : s.isEmpty = false := by
      cases hempty : s.isEmpty with
      | false => rfl
      | true => exact absurd ((String.isEmpty_iff s).mp hempty) hs
    cases fields with
    | nil => simp [jlookup] at hev
    | cons p rest =>
      simp [build_dimension_filter, pyGet, h, Json.truthy, hev, hne]
  · intro m fields h hev
    cases fields with
    | nil => simp [build_dimension_filter, pyGet, h, Json.truthy]
    | cons p rest =>
      simp [build_dimension_filter, pyGet, h, Json.truthy, hev]

theorem dimension_filter_behaviour_witness :
    build_dimension_filter [("property", .str "p")] = .ok none
    ∧ build_dimension_filter [("dimensionFilter", .obj [])] = .ok none
    ∧ build_dimension_filter
        [("dimensionFilter", .obj [("eventName", .str "purchase")])]
      = .ok (some ⟨"eventName", ⟨.str "purchase", .EXACT⟩⟩)
    ∧ build_dimension_filter [("dimensionFilter", .obj [("foo", .str "bar")])]
      = .ok none :=
  ⟨dimension_filter_behaviour.1 _ rfl,
   dimension_filter_behaviour.2.1 _ _ rfl rfl,
   dimension_filter_behaviour.2.2.1 _ _ "purchase" rfl rfl (by decide),
   dimension_filter_behaviour.2.2.2 _ _ rfl rfl⟩

theorem wrong_bearer_rejected_on_auth_endpoints_witness :
    (legacy_tools (some "s3cret") "Bearer wrong").status_code = 401
    ∧ (legacy_call (fun _ => .ok ⟨[], [], []⟩) (some "s3cret") "Bearer wrong"
        .null).status_code = 401
    ∧ (mcp_http (fun _ => .ok ⟨[], [], []⟩) (some "s3cret") "Bearer wrong"
        none).status_code = 401 :=
  ⟨(wrong_bearer_rejected_on_auth_endpoints (fun _ => .ok ⟨[], [], []⟩)
      "s3cret" .null none (by decide) (by decide)).1,
   (wrong_bearer_rejected_on_auth_endpoints (fun _ => .ok ⟨[], [], []⟩)
      "s3cret" .null none (by decide) (by decide)).2.1,
   (wrong_bearer_rejected_on_auth_endpoints (fun _ => .ok ⟨[], [], []⟩)
      "s3cret" .null none (by decide) (by decide)).2.2.1⟩

theorem build_ok_limit (m : List (String × Json)) (q : RunReportRequest)
    (h : build_run_report_request (.obj m) = .ok q) :
    pyInt (pyGet m "limit" (.num 1000)) = .ok q.limit := by
  simp only [build_run_report_request] at h
  cases h1 : pyGetItem m "property" with
  | error e => simp only [h1] at h; cases h
  | ok prop =>
  simp only [h1] at h
  cases h2 : pyGetItem m "metrics" with
  | error e => simp only [h2] at h; cases h
  | ok metricsv =>
  simp only [h2] at h
  cases h3 : pyIterate metricsv with
  | error e => simp only [h3] at h; cases h
  | ok ms =>
  simp only [h3] at h
  cases h4 : ms.mapM metric_entry with
  | error e => simp only [h4] at h; cases h
  | ok metrics_in =>
  simp only [h4] at h
  cases h5 : pyGetItem m "dateRanges" with
  | error e => simp only [h5] at h; cases h
  | ok rangesv =>
  simp only [h5] at h
  cases h6 : pyIterate rangesv with
  | error e => simp only [h6] at h; cases h
  | ok rs =>
  simp only [h6] at h
  cases h7 : rs.mapM date_range_entry with
  | error e => simp only [h7] at h; cases h
  | ok date_ranges_in =>
  simp only [h7] at h
  cases h8 : pyIterate (pyGet m "dimensions" (.arr [])) with
  | error e => simp only [h8] at h; cases h
  | ok ds =>
  simp only [h8] at h
  cases h9 : ds.mapM dimension_entry with
  | error e => simp only [h9] at h; cases h
  | ok dims_in =>
  simp only [h9] at h
  cases h10 : pyInt (pyGet m "limit" (.num 1000)) with
  | error e => simp only [h10] at h; cases h
  | ok limit =>
  simp only [h10] at h
  cases h11 : build_dimension_filter m with
  | error e => simp only [h11] at h; cases h
  | ok dim_filter =>
  simp only [h11] at h
  rw [Except.ok.injEq] at h
  subst h
  rfl

theorem run_ga4_report_build_error
    (backend : RunReportRequest → Except PyExn GA4Response) (args : Json)
    (ex : PyExn) (h : build_run_report_request args = .error ex) :
    run_ga4_report backend args = .error ex := by
  unfold run_ga4_report
  rw [h]

theorem legacy_call_run_report
    (backend : RunReportRequest → Except PyExn GA4Response)
    (tok : Option String) (hdr : String)
    (hauth : require_bearer tok hdr = .ok ()) (args : Json) :
    legacy_call backend tok hdr
      (.obj [("toolName", .str "run_report"), ("arguments", args)])
    = match run_ga4_report backend args with
      | .ok result => ⟨200, result⟩
      | .error e => ⟨400, .obj [("detail", .str (exnMessage e))]⟩ := by
  unfold legacy_call legacy_call_inner
  rw [hauth]
  simp only [pyGet, jlookup, Option.getD_some]
  cases hr : run_ga4_report backend args <;>
    simp [Json.eqStr, toResponse, hr]

theorem mcp_call_run_report
    (backend : RunReportRequest → Except PyExn GA4Response)
    (tok : Option String) (hdr : String)
    (hauth : require_bearer tok hdr = .ok ()) (i : Json)
    (am : List (String × Json)) :
    mcp_http backend tok hdr (some (.obj [("id", i),
        ("method", .str "tools/call"),
        ("params", .obj [("name", .str "run_report"),
          ("arguments", .obj am)])]))
    = match run_ga4_report backend (.obj am) with
      | .ok result => ⟨200, envOk i (.obj [("content",
          .arr [.obj [("type", .str "json"), ("data", result)]])])⟩
      | .error e => ⟨400, envErr i (exnMessage e)⟩ := by
  unfold mcp_http mcp_http_inner
  rw [hauth]
  simp only [pyGet, jlookup, Option.getD_some]
  have hargs :
      (if (Json.obj am).truthy = true then Json.obj am else Json.obj [])
        = Json.obj am := by
    cases am <;> simp [Json.truthy]
  have hm1 : (Json.str "tools/call").truthy = true := by decide
  have hm2 : Json.eqStr (.str "tools/call") "tools/list" = false := by decide
  have hm3 : Json.eqStr (.str "tools/call") "tools/call" = true := by decide
  have hm4 : Json.eqStr (.str "run_report") "run_report" = true := by decide
  have hm5 : (Json.obj [("name", Json.str "run_report"),
      ("arguments", Json.obj am)]).truthy = true := rfl
  cases hr : run_ga4_report backend (.obj am) <;>
    simp [hm1, hm2, hm3, hm4, hm5, hargs, hr, toResponse, jlookup, pyGet]


example : build_run_report_request (.obj sample_args) = .ok sample_query := rfl

/-- C7: when `limit` is absent the built query's limit is 1000; a present
`limit` is coerced with Python `int(…)`; a non-coercible limit makes the
build (and hence the request) fail with HTTP 400 — it is never silently
zeroed. -/
theorem limit_default_and_failure :
    (∀ m q, jlookup m "limit" = none →
      build_run_report_request (.obj m) = .ok q → q.limit = 1000)
    ∧ (∀ m v n q, jlookup m "limit" = some v → pyInt v = .ok n →
      build_run_report_request (.obj m) = .ok q → q.limit = n)
    ∧ (∀ m v ex, jlookup m "limit" = some v → pyInt v = .error ex →
      (∀ q, build_run_report_request (.obj m) ≠ .ok q)
      ∧ (∀ backend tok hdr, require_bearer tok hdr = .ok () →
        (legacy_call backend tok hdr (.obj [("toolName", .str "run_report"),
          ("arguments", .obj m)])).status_code = 400)) := by
  refine ⟨?_, ?_, ?_⟩
  · intro m q hl hq
    have h := build_ok_limit m q hq
    simp only [pyGet, hl, Option.getD_none, pyInt, Except.ok.injEq] at h
    exact h.symm
  · intro m v n q hl hv hq
    have h := build_ok_limit m q hq
    simp only [pyGet, hl, Option.getD_some, hv, Except.ok.injEq] at h
    exact h.symm
  · intro m v ex hl hv
    have hfail : ∀ q, build_run_report_request (.obj m) ≠ .ok q := by
      intro q hq
      have h := build_ok_limit m q hq
      simp only [pyGet, hl, Option.getD_some, hv] at h
      cases h
    refine ⟨hfail, ?_⟩
    intro backend tok hdr hauth
    cases hb : build_run_report_request (.obj m) with
    | ok q => exact absurd hb (hfail q)
    | error e =>
      have hrun := run_ga4_report_build_error backend _ _ hb
      rw [legacy_call_run_report backend tok hdr hauth (.obj m), hrun]



theorem limit_default_and_failure_witness :
    (∃ q, build_run_report_request (.obj sample_args) = .ok q
      ∧ q.limit = 1000)
    ∧ (∃ q, build_run_report_request (.obj (sample_args_lim (.str "50")))
        = .ok q ∧ q.limit = 50)
    ∧ Response.status_code
        (legacy_call (fun _ => .ok ⟨[], [], []⟩) (some "s3cret")
          "Bearer s3cret" (.obj [("toolName", .str "run_report"),
            ("arguments", .obj (sample_args_lim (.str "ten")))])) = 400 :=
  ⟨⟨sample_query, rfl,
     limit_default_and_failure.1 sample_args sample_query rfl rfl⟩,
   ⟨sample_query_lim, rfl,
     limit_default_and_failure.2.1 (sample_args_lim (.str "50")) (.str "50")
       50 sample_query_lim rfl rfl rfl⟩,
   (limit_default_and_failure.2.2 (sample_args_lim (.str "ten")) (.str "ten")
      (.otherError "invalid literal for int() with base 10: 'ten'")
      rfl rfl).2 (fun _ => .ok ⟨[], [], []⟩) (some "s3cret") "Bearer s3cret"
      rfl⟩

theorem build_missing_property (m : List (String × Json))
    (h : jlookup m "property" = none) :
    build_run_report_request (.obj m) = .error (.keyError "property") := by
  simp [build_run_report_request, pyGetItem, h]

theorem build_missing_metrics (m : List (String × Json)) (p : Json)
    (hp : jlookup m "property" = some p) (h : jlookup m "metrics" = none) :
    build_run_report_request (.obj m) = .error (.keyError "metrics") := by
  simp [build_run_report_request, pyGetItem, hp, h]

theorem build_missing_dateRanges (m : List (String × Json)) (p : Json)
    (ms : List Json) (l : List Metric)
    (hp : jlookup m "property" = some p)
    (hm : jlookup m "metrics" = some (.arr ms))
    (hmm : ms.mapM metric_entry = .ok l)
    (h : jlookup m "dateRanges" = none) :
    build_run_report_request (.obj m) = .error (.keyError "dateRanges") := by
  simp only [build_run_report_request, pyGetItem, pyIterate, hp, hm, hmm, h]

theorem legacy_call_missing_field
    (backend : RunReportRequest → Except PyExn GA4Response)
    (tok : Option String) (hdr : String)
    (hauth : require_bearer tok hdr = .ok ())
    (m : List (String × Json)) (k : String)
    (hb : build_run_report_request (.obj m) = .error (.keyError k)) :
    legacy_call backend tok hdr (.obj [("toolName", .str "run_report"),
        ("arguments", .obj m)])
      = ⟨400, .obj [("detail", .str ("Missing required field: " ++ k))]⟩ := by
  have hrun := run_ga4_report_build_error backend _ _ hb
  rw [legacy_call_run_report backend tok hdr hauth (.obj m), hrun]
  rfl

theorem mcp_call_missing_field
    (backend : RunReportRequest → Except PyExn GA4Response)
    (tok : Option String) (hdr : String) (i : Json)
    (hauth : require_bearer tok hdr = .ok ())
    (m : List (String × Json)) (k : String)
    (hb : build_run_report_request (.obj m) = .error (.keyError k)) :
    mcp_http backend tok hdr (some (.obj [("id", i),
        ("method", .str "tools/call"),
        ("params", .obj [("name", .str "run_report"),
          ("arguments", .obj m)])]))
      = ⟨400, envErr i ("Missing required field: " ++ k)⟩ := by
  have hrun := run_ga4_report_build_error backend _ _ hb
  rw [mcp_call_run_report backend tok hdr hauth i m, hrun]
  rfl

/-- C4: an `Arguments` object missing `property`, `metrics` or `dateRanges`
(or a metric/dimension entry missing `name`, or a date range missing
`startDate` / `endDate`) makes the request fail with HTTP 400 and the
message `Missing required field: <field>` naming exactly the absent key, in
both the legacy REST framing and the RPC framing (last conjunct: every
missing-key validation error surfaces that way in both framings). -/
theorem missing_required_field_reported
    (backend : RunReportRequest → Except PyExn GA4Response)
    (tok : Option String) (hdr : String) (i : Json)
    (hauth : require_bearer tok hdr = .ok ()) :
    (∀ m, jlookup m "property" = none →
      legacy_call backend tok hdr (.obj [("toolName", .str "run_report"),
          ("arguments", .obj m)])
        = ⟨400, .obj [("detail", .str "Missing required field: property")]⟩
      ∧ mcp_http backend tok hdr (some (.obj [("id", i),
          ("method", .str "tools/call"),
          ("params", .obj [("name", .str "run_report"),
            ("arguments", .obj m)])]))
        = ⟨400, envErr i "Missing required field: property"⟩)
    ∧ (∀ m p, jlookup m "property" = some p → jlookup m "metrics" = none →
      legacy_call backend tok hdr (.obj [("toolName", .str "run_report"),
          ("arguments", .obj m)])
        = ⟨400, .obj [("detail", .str "Missing required field: metrics")]⟩
      ∧ mcp_http backend tok hdr (some (.obj [("id", i),
          ("method", .str "tools/call"),
          ("params", .obj [("name", .str "run_report"),
            ("arguments", .obj m)])]))
        = ⟨400, envErr i "Missing required field: metrics"⟩)
    ∧ (∀ m p ms l, jlookup m "property" = some p →
      jlookup m "metrics" = some (.arr ms) →
      ms.mapM metric_entry = .ok l → jlookup m "dateRanges" = none →
      legacy_call backend tok hdr (.obj [("toolName", .str "run_report"),
          ("arguments", .obj m)])
        = ⟨400, .obj [("detail", .str "Missing required field: dateRanges")]⟩
      ∧ mcp_http backend tok hdr (some (.obj [("id", i),
          ("method", .str "tools/call"),
          ("params", .obj [("name", .str "run_report"),
            ("arguments", .obj m)])]))
        = ⟨400, envErr i "Missing required field: dateRanges"⟩)
    ∧ (∀ fields, jlookup fields "name" = none →
      metric_entry (.obj fields) = .error (.keyError "name"))
    ∧ (∀ fields, jlookup fields "name" = none →
      dimension_entry (.obj fields) = .error (.keyError "name"))
    ∧ (∀ fields, jlookup fields "startDate" = none →
      date_range_entry (.obj fields) = .error (.keyError "startDate"))
    ∧ (∀ fields sd, jlookup fields "startDate" = some sd →
      jlookup fields "endDate" = none →
      date_range_entry (.obj fields) = .error (.keyError "endDate"))
    ∧ (∀ m k, build_run_report_request (.obj m) = .error (.keyError k) →
      legacy_call backend tok hdr (.obj [("toolName", .str "run_report"),
          ("arguments", .obj m)])
        = ⟨400, .obj [("detail",
            .str ("Missing required field: " ++ k))]⟩
      ∧ mcp_http backend tok hdr (some (.obj [("id", i),
          ("method", .str "tools/call"),
          ("params", .obj [("name", .str "run_report"),
            ("arguments", .obj m)])]))
        = ⟨400, envErr i ("Missing required field: " ++ k)⟩) := by
  refine ⟨?_, ?_, ?_, ?_, ?_, ?_, ?_, ?_⟩
  · intro m h
    exact ⟨legacy_call_missing_field backend tok hdr hauth m "property"
        (build_missing_property m h),
      mcp_call_missing_field backend tok hdr i hauth m "property"
        (build_missing_property m h)⟩
  · intro m p hp h
    exact ⟨legacy_call_missing_field backend tok hdr hauth m "metrics"
        (build_missing_metrics m p hp h),
      mcp_call_missing_field backend tok hdr i hauth m "metrics"
        (build_missing_metrics m p hp h)⟩
  · intro m p ms l hp hm hmm h
    exact ⟨legacy_call_missing_field backend tok hdr hauth m "dateRanges"
        (build_missing_dateRanges m p ms l hp hm hmm h),
      mcp_call_missing_field backend tok hdr i hauth m "dateRanges"
        (build_missing_dateRanges m p ms l hp hm hmm h)⟩
  · intro fields h
    simp [metric_entry, pyGetItem, h]
  · intro fields h
    simp [dimension_entry, pyGetItem, h]
  · intro fields h
    simp [date_range_entry, pyGetItem, h]
  · intro fields sd hsd h
    simp [date_range_entry, pyGetItem, hsd, h]
  · intro m k hb
    exact ⟨legacy_call_missing_field backend tok hdr hauth m k hb,
      mcp_call_missing_field backend tok hdr i hauth m k hb⟩

theorem missing_required_field_reported_witness :
    legacy_call (fun _ => .ok ⟨[], [], []⟩) (some "s3cret") "Bearer s3cret"
      (.obj [("toolName", .str "run_report"), ("arguments", .obj [])])
      = ⟨400, .obj [("detail", .str "Missing required field: property")]⟩
    ∧ mcp_http (fun _ => .ok ⟨[], [], []⟩) (some "s3cret") "Bearer s3cret"
      (some (.obj [("id", .str "1"), ("method", .str "tools/call"),
        ("params", .obj [("name", .str "run_report"),
          ("arguments", .obj [])])]))
      = ⟨400, envErr (.str "1") "Missing required field: property"⟩ :=
  (missing_required_field_reported (fun _ => .ok ⟨[], [], []⟩)
    (some "s3cret") "Bearer s3cret" (.str "1") rfl).1 [] rfl

/-- C10: an authenticated legacy `POST /call` whose body lacks `toolName`,
and an authenticated RPC `tools/call` whose params lack `name`, are rejected
with HTTP 400 and the literal message `Unknown tool: None` — the absent name
is interpolated as the string `"None"` and treated as an unknown tool, not
reported as a missing field. -/
theorem absent_tool_name_is_unknown_tool_none
    (backend : RunReportRequest → Except PyExn GA4Response)
    (tok : Option String) (hdr : String)
    (hauth : require_bearer tok hdr = .ok ()) :
    (∀ bm, jlookup bm "toolName" = none →
      legacy_call backend tok hdr (.obj bm)
        = ⟨400, .obj [("detail", .str "Unknown tool: None")]⟩)
    ∧ (∀ pm qm, jlookup pm "method" = some (.str "tools/call") →
      jlookup pm "params" = some (.obj qm) → jlookup qm "name" = none →
      mcp_http backend tok hdr (some (.obj pm))
        = ⟨400, envErr (pyGet pm "id" .null) "Unknown tool: None"⟩) := by
  constructor
  · intro bm h
    unfold legacy_call legacy_call_inner
    rw [hauth]
    simp only [pyGet, h, Option.getD_none]
    rfl
  · intro pm qm hm hp hn
    unfold mcp_http mcp_http_inner
    rw [hauth]
    have hq : (if (Json.obj qm).truthy = true then Json.obj qm
        else Json.obj []) = Json.obj qm := by
      cases qm <;> simp [Json.truthy]
    simp only [pyGet, hm, hp, hn, Option.getD_some, Option.getD_none, hq]
    rfl

theorem absent_tool_name_is_unknown_tool_none_witness :
    legacy_call (fun _ => .ok ⟨[], [], []⟩) (some "s3cret") "Bearer s3cret"
      (.obj [])
      = ⟨400, .obj [("detail", .str "Unknown tool: None")]⟩
    ∧ mcp_http (fun _ => .ok ⟨[], [], []⟩) (some "s3cret") "Bearer s3cret"
      (some (.obj [("id", .str "7"), ("method", .str "tools/call"),
        ("params", .obj [])]))
      = ⟨400, envErr (.str "7") "Unknown tool: None"⟩ :=
  ⟨(absent_tool_name_is_unknown_tool_none (fun _ => .ok ⟨[], [], []⟩)
      (some "s3cret") "Bearer s3cret" rfl).1 [] rfl,
   (absent_tool_name_is_unknown_tool_none (fun _ => .ok ⟨[], [], []⟩)
      (some "s3cret") "Bearer s3cret" rfl).2
      [("id", .str "7"), ("method", .str "tools/call"), ("params", .obj [])]
      [] rfl rfl rfl⟩

/-- C8: the tool description is a fixed constant: `GET /tools` returns
`{"tools": [tool_schema]}`, RPC `tools/list` wraps the byte-identical array
in its envelope (it literally reuses the REST handler's payload), and the
two tools arrays coincide for every authenticated request. -/
theorem tool_lists_identical
    (backend : RunReportRequest → Except PyExn GA4Response)
    (tok : Option String) (hdr : String) (i : Json)
    (hauth : require_bearer tok hdr = .ok ()) :
    legacy_tools tok hdr = ⟨200, tools_payload⟩
    ∧ mcp_http backend tok hdr
        (some (.obj [("id", i), ("method", .str "tools/list")]))
      = ⟨200, envOk i (.obj [("tools", .arr [tool_schema])])⟩
    ∧ ∃ ts, (legacy_tools tok hdr).body.get? "tools" = some ts
      ∧ (mcp_http backend tok hdr
          (some (.obj [("id", i), ("method", .str "tools/list")]))).body.get?
            "result" = some (.obj [("tools", ts)]) := by
  have h1 : legacy_tools tok hdr = ⟨200, tools_payload⟩ := by
    unfold legacy_tools legacy_tools_inner toResponse
    rw [hauth]
  have h2 : mcp_http backend tok hdr
      (some (.obj [("id", i), ("method", .str "tools/list")]))
      = ⟨200, envOk i (.obj [("tools", .arr [tool_schema])])⟩ := by
    unfold mcp_http mcp_http_inner legacy_tools_inner
    rw [hauth]
    rfl
  refine ⟨h1, h2, .arr [tool_schema], ?_, ?_⟩
  · rw [h1]; rfl
  · rw [h2]; rfl

theorem tool_lists_identical_witness :
    legacy_tools (some "s3cret") "Bearer s3cret" = ⟨200, tools_payload⟩
    ∧ mcp_http (fun _ => .ok ⟨[], [], []⟩) (some "s3cret") "Bearer s3cret"
      (some (.obj [("id", .str "1"), ("method", .str "tools/list")]))
      = ⟨200, envOk (.str "1") (.obj [("tools", .arr [tool_schema])])⟩ :=
  ⟨(tool_lists_identical (fun _ => .ok ⟨[], [], []⟩) (some "s3cret")
      "Bearer s3cret" (.str "1") rfl).1,
   (tool_lists_identical (fun _ => .ok ⟨[], [], []⟩) (some "s3cret")
      "Bearer s3cret" (.str "1") rfl).2.1⟩


theorem mcp_http_shape
    (backend : RunReportRequest → Except PyExn GA4Response)
    (tok : Option String) (hdr : String) (pl? : Option Json) :
    (∃ ex : HTTPException, mcp_http backend tok hdr pl?
        = ⟨ex.status_code, .obj [("detail", .str ex.detail)]⟩)
    ∨ (∃ r, mcp_http backend tok hdr pl? = ⟨200, envOk (rpc_req_id pl?) r⟩)
    ∨ (∃ msg, mcp_http backend tok hdr pl?
        = ⟨400, envErr (rpc_req_id pl?) msg⟩) := by
  unfold mcp_http mcp_http_inner
  cases ha : require_bearer tok hdr with
  | error e => exact Or.inl ⟨e, rfl⟩
  | ok u =>
    cases u
    cases pl? with
    | none => exact Or.inl ⟨⟨400, "Invalid JSON"⟩, rfl⟩
    | some payload =>
      cases payload with
      | null => exact Or.inl ⟨⟨500, "Internal Server Error"⟩, rfl⟩
      | bool b => exact Or.inl ⟨⟨500, "Internal Server Error"⟩, rfl⟩
      | num n => exact Or.inl ⟨⟨500, "Internal Server Error"⟩, rfl⟩
      | str s => exact Or.inl ⟨⟨500, "Internal Server Error"⟩, rfl⟩
      | arr xs => exact Or.inl ⟨⟨500, "Internal Server Error"⟩, rfl⟩
      | obj pm =>
        dsimp only
        by_cases hm : (pyGet pm "method" Json.null).truthy = true
        case neg =>
          refine Or.inl ⟨⟨400, "Missing 'method'"⟩, ?_⟩
          simp [toResponse, hm]
        case pos =>
          by_cases hl : (pyGet pm "method" Json.null).eqStr "tools/list" = true
          case pos =>
            refine Or.inr (Or.inl ⟨.obj [("tools", .arr [tool_schema])], ?_⟩)
            unfold legacy_tools_inner
            rw [ha]
            simp [toResponse, hm, hl, rpc_req_id]
            rfl
          case neg =>
            by_cases hc :
                (pyGet pm "method" Json.null).eqStr "tools/call" = true
            case pos =>
              cases hp : (if (pyGet pm "params" (Json.obj [])).truthy = true
                  then pyGet pm "params" (Json.obj [])
                  else Json.obj []) with
              | obj qm =>
                by_cases hn :
                    (pyGet qm "name" Json.null).eqStr "run_report" = true
                case neg =>
                  refine Or.inr (Or.inr
                    ⟨"Unknown tool: " ++ pyStr (pyGet qm "name" Json.null), ?_⟩)
                  simp [toResponse, hm, hl, hc, hp, hn, rpc_req_id]
                case pos =>
                  cases hr : run_ga4_report backend
                      (if (pyGet qm "arguments" (Json.obj [])).truthy = true
                        then pyGet qm "arguments" (Json.obj [])
                        else Json.obj []) with
                  | ok result =>
                    refine Or.inr (Or.inl ⟨.obj [("content",
                      .arr [.obj [("type", .str "json"),
                        ("data", result)]])], ?_⟩)
                    simp [toResponse, hm, hl, hc, hp, hn, hr, rpc_req_id]
                  | error e =>
                    refine Or.inr (Or.inr ⟨exnMessage e, ?_⟩)
                    simp [toResponse, hm, hl, hc, hp, hn, hr, rpc_req_id]
              | null =>
                refine Or.inl ⟨⟨500, "Internal Server Error"⟩, ?_⟩
                simp [toResponse, hm, hl, hc, hp]
              | bool b =>
                refine Or.inl ⟨⟨500, "Internal Server Error"⟩, ?_⟩
                simp [toResponse, hm, hl, hc, hp]
              | num n =>
                refine Or.inl ⟨⟨500, "Internal Server Error"⟩, ?_⟩
                simp [toResponse, hm, hl, hc, hp]
              | str s =>
                refine Or.inl ⟨⟨500, "Internal Server Error"⟩, ?_⟩
                simp [toResponse, hm, hl, hc, hp]
              | arr xs =>
                refine Or.inl ⟨⟨500, "Internal Server Error"⟩, ?_⟩
                simp [toResponse, hm, hl, hc, hp]
            case neg =>
              refine Or.inr (Or.inr
                ⟨"Unknown method: " ++ pyStr (pyGet pm "method" Json.null), ?_⟩)
              simp [toResponse, hm, hl, hc, rpc_req_id]

/-- C9: whenever the `POST /` handler's response body carries an `id` field
(i.e. is enveloped), that field echoes the request's `id` verbatim,
propagating as null when absent; and whenever the body carries an `error`
envelope, that envelope's `code` is 400 and the HTTP status is
simultaneously 400. -/
theorem rpc_envelope_id_and_error_code
    (backend : RunReportRequest → Except PyExn GA4Response)
    (tok : Option String) (hdr : String) (pl? : Option Json) :
    (∀ i, (mcp_http backend tok hdr pl?).body.get? "id" = some i →
      i = rpc_req_id pl?)
    ∧ (∀ e, (mcp_http backend tok hdr pl?).body.get? "error" = some e →
      e.get? "code" = some (.num 400)
      ∧ (mcp_http backend tok hdr pl?).status_code = 400) := by
  rcases mcp_http_shape backend tok hdr pl? with ⟨ex, h⟩ | ⟨r, h⟩ | ⟨msg, h⟩
  · constructor
    · intro i hi
      rw [h] at hi
      simp [Json.get?, jlookup] at hi
    · intro e he
      rw [h] at he
      simp [Json.get?, jlookup] at he
  · constructor
    · intro i hi
      rw [h] at hi
      simp [envOk, Json.get?, jlookup] at hi
      exact hi.symm
    · intro e he
      rw [h] at he
      simp [envOk, Json.get?, jlookup] at he
  · constructor
    · intro i hi
      rw [h] at hi
      simp [envErr, Json.get?, jlookup] at hi
      exact hi.symm
    · intro e he
      rw [h] at he
      simp [envErr, Json.get?, jlookup] at he
      rw [h]
      subst he
      exact ⟨rfl, rfl⟩

theorem rpc_envelope_id_and_error_code_witness :
    Json.str "9" = rpc_req_id (some (.obj [("id", .str "9"),
        ("method", .str "nope")]))
    ∧ ((Json.obj [("code", .num 400),
        ("message", .str "Unknown method: nope")]).get? "code"
          = some (.num 400)
      ∧ (mcp_http (fun _ => .ok ⟨[], [], []⟩) (some "s3cret") "Bearer s3cret"
          (some (.obj [("id", .str "9"),
            ("method", .str "nope")]))).status_code = 400) :=
  ⟨(rpc_envelope_id_and_error_code (fun _ => .ok ⟨[], [], []⟩)
      (some "s3cret") "Bearer s3cret"
      (some (.obj [("id", .str "9"), ("method", .str "nope")]))).1
      (.str "9") rfl,
   (rpc_envelope_id_and_error_code (fun _ => .ok ⟨[], [], []⟩)
      (some "s3cret") "Bearer s3cret"
      (some (.obj [("id", .str "9"), ("method", .str "nope")]))).2
      (.obj [("code", .num 400), ("message", .str "Unknown method: nope")])
      rfl⟩

theorem pyDictSet_append (d : List (String × String)) (k : String)
    (v : String) (h : ∀ p ∈ d, p.1 ≠ k) :
    pyDictSet d k v = d ++ [(k, v)] := by
  have hc : (d.any fun p => p.1 = k) = false := by
    rw [List.any_eq_false]
    intro p hp
    simp [h p hp]
  unfold pyDictSet
  rw [hc]
  simp

theorem pyDict_go (ps d : List (String × String))
    (hd : ∀ p ∈ ps, ∀ p' ∈ d, p'.1 ≠ p.1)
    (hnod : (ps.map Prod.fst).Nodup) :
    ps.foldl (fun acc p => pyDictSet acc p.1 p.2) d = d ++ ps := by
  induction ps generalizing d with
  | nil => simp
  | cons p rest ih =>
    have hnodc : p.1 ∉ rest.map Prod.fst ∧ (rest.map Prod.fst).Nodup := by
      rw [List.map_cons, List.nodup_cons] at hnod
      exact hnod
    simp only [List.foldl_cons]
    rw [pyDictSet_append d p.1 p.2 (fun p' hp' => hd p (by simp) p' hp')]
    rw [ih (d ++ [(p.1, p.2)]) ?_ hnodc.2]
    · simp
    · intro x hx p' hp'
      rcases List.mem_append.mp hp' with hmem | hmem
      · exact hd x (by simp [hx]) p' hmem
      · simp only [List.mem_singleton] at hmem
        subst hmem
        intro hxe
        exact hnodc.1 (by rw [hxe]; exact List.mem_map_of_mem Prod.fst hx)

theorem pyDict_eq_self (ps : List (String × String))
    (h : (ps.map Prod.fst).Nodup) : pyDict ps = ps := by
  have := pyDict_go ps [] (by simp) h
  simpa [pyDict] using this

theorem map_fst_zip_take (H V : List String) :
    (H.zip V).map Prod.fst = H.take V.length := by
  induction H generalizing V with
  | nil => simp
  | cons h hs ih =>
    cases V with
    | nil => simp
    | cons v vs => simp [ih]

/-- C1: flattening law — when each backend row carries exactly as many
dimension (resp. metric) values as there are dimension (resp. metric)
headers, every produced row mapping is exactly the Python dict pairing
dimension headers with dimension values followed by metric headers with
metric values, and `rowCount` equals the length of the returned rows. -/
theorem report_flattening_law
    (backend : RunReportRequest → Except PyExn GA4Response) (args : Json)
    (q : RunReportRequest) (resp : GA4Response)
    (hq : build_run_report_request args = .ok q) (hb : backend q = .ok resp)
    (hlen : ∀ r ∈ resp.rows,
      r.dimension_values.length = resp.dimension_headers.length
      ∧ r.metric_values.length = resp.metric_headers.length) :
    run_ga4_report backend args = .ok (.obj [("ok", .bool true),
      ("rowCount", .num resp.rows.length),
      ("rows", .arr (resp.rows.map (fun r => rowJson (pyDict
        ((resp.dimension_headers.map DimensionHeader.name).zip
            (r.dimension_values.map DimensionValue.string_value)
          ++ (resp.metric_headers.map MetricHeader.name).zip
            (r.metric_values.map MetricValue.value))))))]) := by
  have hrows : resp.rows.map
      (fun r => flatten_row (flatten_headers resp) (row_vals r))
      = resp.rows.map (fun r => pyDict
        ((resp.dimension_headers.map DimensionHeader.name).zip
            (r.dimension_values.map DimensionValue.string_value)
          ++ (resp.metric_headers.map MetricHeader.name).zip
            (r.metric_values.map MetricValue.value))) := by
    apply List.map_congr_left
    intro r hr
    unfold flatten_row flatten_headers row_vals
    rw [List.zip_append]
    simp [(hlen r hr).1]
  unfold run_ga4_report
  simp only [hq, hb]
  simp only [flatten_report]
  rw [hrows]
  simp [List.map_map, Function.comp]

theorem report_flattening_law_witness :
    run_ga4_report (fun _ => .ok ⟨[⟨"date"⟩], [⟨"activeUsers"⟩],
        [⟨[⟨"20240101"⟩], [⟨"5"⟩]⟩]⟩) (.obj sample_args)
      = .ok (.obj [("ok", .bool true), ("rowCount", .num 1),
        ("rows", .arr [.obj [("date", .str "20240101"),
          ("activeUsers", .str "5")]])]) := by
  have h := report_flattening_law (fun _ => .ok ⟨[⟨"date"⟩], [⟨"activeUsers"⟩],
      [⟨[⟨"20240101"⟩], [⟨"5"⟩]⟩]⟩) (.obj sample_args) sample_query
      ⟨[⟨"date"⟩], [⟨"activeUsers"⟩], [⟨[⟨"20240101"⟩], [⟨"5"⟩]⟩]⟩ rfl rfl
      ?hlen
  · exact h
  case hlen =>
    intro r hr
    simp only [List.mem_singleton] at hr
    subst hr
    exact ⟨rfl, rfl⟩


/-- C2 counterexample: a backend reply with one dimension header and one
metric header whose single row carries no values produces the row mapping
`{}` — 0 entries, not `len(dimensionHeaders) + len(metricHeaders) = 2`:
`zip` truncates to the shorter list, so headers beyond the values are
dropped too. -/
theorem row_entry_count_counterexample :
    run_ga4_report (fun _ => .ok cex_resp) (.obj sample_args)
      = .ok (.obj [("ok", .bool true), ("rowCount", .num 1),
        ("rows", .arr [.obj []])])
    ∧ (flatten_row (flatten_headers cex_resp) (row_vals ⟨[], []⟩)).length
      ≠ cex_resp.dimension_headers.length + cex_resp.metric_headers.length :=
  ⟨rfl, by decide⟩

/-- C2 (amended): with distinct header names, every produced row mapping has
exactly `min(len(dimensionHeaders) + len(metricHeaders), len(values))`
entries: when the backend returns more values than headers the excess values
are silently dropped and every header remains keyed, and when it returns
fewer values the unmatched trailing headers are absent as well. -/
theorem row_entry_counts
    (backend : RunReportRequest → Except PyExn GA4Response) (args : Json)
    (q : RunReportRequest) (resp : GA4Response)
    (hq : build_run_report_request args = .ok q) (hb : backend q = .ok resp)
    (hnodup : (flatten_headers resp).Nodup) :
    run_ga4_report backend args = .ok (flatten_report resp)
    ∧ ∀ r ∈ resp.rows,
      (flatten_row (flatten_headers resp) (row_vals r)).length
        = min (resp.dimension_headers.length + resp.metric_headers.length)
            (row_vals r).length
      ∧ ((flatten_headers resp).length ≤ (row_vals r).length →
        (flatten_row (flatten_headers resp) (row_vals r)).map Prod.fst
          = flatten_headers resp) := by
  constructor
  · unfold run_ga4_report
    simp only [hq, hb]
  · intro r hr
    have hnod2 : (((flatten_headers resp).zip (row_vals r)).map
        Prod.fst).Nodup := by
      rw [map_fst_zip_take]
      exact List.Nodup.sublist (List.take_sublist _ _) hnodup
    have hself : flatten_row (flatten_headers resp) (row_vals r)
        = (flatten_headers resp).zip (row_vals r) := by
      unfold flatten_row
      exact pyDict_eq_self _ hnod2
    constructor
    · rw [hself, List.length_zip]
      simp [flatten_headers]
    · intro hle
      rw [hself, List.map_fst_zip _ _ hle]

theorem row_entry_counts_witness :
    run_ga4_report (fun _ => .ok ⟨[⟨"d"⟩], [⟨"m"⟩], [⟨[⟨"x"⟩], [⟨"1"⟩]⟩]⟩)
        (.obj sample_args)
      = .ok (flatten_report ⟨[⟨"d"⟩], [⟨"m"⟩], [⟨[⟨"x"⟩], [⟨"1"⟩]⟩]⟩)
    ∧ (flatten_row (flatten_headers ⟨[⟨"d"⟩], [⟨"m"⟩], [⟨[⟨"x"⟩], [⟨"1"⟩]⟩]⟩)
        (row_vals ⟨[⟨"x"⟩], [⟨"1"⟩]⟩)).length = min 2 2 := by
  have h := row_entry_counts (fun _ => .ok ⟨[⟨"d"⟩], [⟨"m"⟩],
      [⟨[⟨"x"⟩], [⟨"1"⟩]⟩]⟩) (.obj sample_args) sample_query
      ⟨[⟨"d"⟩], [⟨"m"⟩], [⟨[⟨"x"⟩], [⟨"1"⟩]⟩]⟩ rfl rfl (by decide)
  exact ⟨h.1, (h.2 ⟨[⟨"x"⟩], [⟨"1"⟩]⟩ (by simp)).1⟩
